import Mathlib

/-!
Verification of `pybase.py` (ilya-il/pybase), a template command-line
application whose interesting behaviour is the Oracle native-library
environment bootstrap (`oracle_decorator`), the database session
open/close discipline (`oracle_connect` / `oracle_disconnect` and the
`cmd3` branch of `App.run`), the row projection (`oracle_row_factory`),
and the startup privilege gate (`check_admin` called from `App.__init__`).

The source is shallowly embedded below: the process environment is a pair
of optional search-path variables, Python exceptions become `Except`,
and the observable actions of `App.run` / `App.__init__` become event
traces.
-/

set_option autoImplicit false

namespace PyBase

/-- The two values `os.name` takes in CPython: `'nt'` or `'posix'`. -/
inductive OSName where
  | nt
  | posix
deriving DecidableEq, Repr

/-- The process environment, restricted to the two variables the program
reads or writes: `PATH` and `LD_LIBRARY_PATH`.  `none` models an absent
variable, `some s` a variable set to the string `s`. -/
structure Env where
  path : Option String
  ldLibraryPath : Option String
deriving DecidableEq, Repr

/-- The search-path variable the probe consults on each platform:
`PATH` on Windows, `LD_LIBRARY_PATH` on POSIX. -/
def searchVar (osn : OSName) (env : Env) : Option String :=
  match osn with
  | .nt => env.path
  | .posix => env.ldLibraryPath

/-- Truthiness of `os.environ.get(var)` in a Python boolean context:
an absent variable gives `None` (falsy) and an empty string is falsy. -/
def envTruthy : Option String → Bool
  | none => false
  | some s => !(s == "")

/-- Python's `hay.find(needle) != -1`: `needle` occurs in `hay` as a
contiguous substring. -/
def pyContainsSub (hay needle : String) : Bool :=
  decide (needle.data <:+: hay.data)

/-- The environment check of `oracle_decorator.wrapper` (pybase.py
lines 235-239), translated disjunct by disjunct:

    ora_check = ora_client_path == '' or
      (os.name == 'nt' and os.environ.get('PATH') and
         os.environ.get('PATH').find(ora_client_path) != -1) or
      (os.name == 'posix' and os.environ.get('LD_LIBRARY_PATH') and
         os.environ.get('LD_LIBRARY_PATH').find(ora_client_path) != -1)

The short-circuiting `and` means `.find` is only reached when the
variable is present and non-empty; `Option.getD` under the `envTruthy`
guard reflects that. -/
def oraCheck (osn : OSName) (oraClientPath : String) (env : Env) : Bool :=
  (oraClientPath == "") ||
  (decide (osn = OSName.nt) && envTruthy env.path &&
    pyContainsSub (env.path.getD "") oraClientPath) ||
  (decide (osn = OSName.posix) && envTruthy env.ldLibraryPath &&
    pyContainsSub (env.ldLibraryPath.getD "") oraClientPath)

/-- An `os.execv(file, argv)` call: the replacement image and its
argument vector. -/
structure ExecCall where
  file : String
  argv : List String
deriving DecidableEq, Repr

/-- Environment mutation plus process replacement performed by the
relaunch branch. -/
structure RelaunchResult where
  env : Env
  call : ExecCall
deriving DecidableEq, Repr

/-- The `else` branch of `oracle_decorator.wrapper` (pybase.py lines
254-266): mutate the search-path variable, then `os.execv`.  Faithful to
the source: the separator prepended to `ora_client_path` is `';'` in
BOTH the `nt` and the `posix` branch; on `nt` the new image is
`sys.executable` with `[sys.executable] + sys.argv` as arguments, on
`posix` it is `sys.argv[0]` with `sys.argv`. -/
def relaunchBranch (osn : OSName) (oraClientPath : String) (env : Env)
    (pyExecutable : String) (argv : List String) : RelaunchResult :=
  match osn with
  | .nt =>
    let env' : Env :=
      if envTruthy env.path then
        { env with path := some (env.path.getD "" ++ ";" ++ oraClientPath) }
      else
        { env with path := some oraClientPath }
    { env := env', call := { file := pyExecutable, argv := pyExecutable :: argv } }
  | .posix =>
    let env' : Env :=
      if envTruthy env.ldLibraryPath then
        { env with ldLibraryPath := some (env.ldLibraryPath.getD "" ++ ";" ++ oraClientPath) }
      else
        { env with ldLibraryPath := some oraClientPath }
    { env := env', call := { file := argv.headD "", argv := argv } }

/-- Outcome of `oracle_decorator.wrapper`: either the check passed (the
driver is imported and the wrapped function runs) or the process is
replaced. -/
inductive WrapperOutcome where
  | proceed
  | relaunched (r : RelaunchResult)
deriving DecidableEq, Repr

/-- `oracle_decorator.wrapper` control flow (pybase.py lines 232-266). -/
def oracleWrapper (osn : OSName) (oraClientPath : String) (env : Env)
    (pyExecutable : String) (argv : List String) : WrapperOutcome :=
  if oraCheck osn oraClientPath env then
    .proceed
  else
    .relaunched (relaunchBranch osn oraClientPath env pyExecutable argv)

/-- Modelled from the spec (claim C3's wording): the same relaunch
mutation but appending with the platform path-list separator, `';'` on
Windows and `':'` on POSIX.  Used only to compare against
`relaunchBranch`, the translation of the source. -/
def relaunchEnvSpec (osn : OSName) (oraClientPath : String) (env : Env) : Env :=
  match osn with
  | .nt =>
    if envTruthy env.path then
      { env with path := some (env.path.getD "" ++ ";" ++ oraClientPath) }
    else
      { env with path := some oraClientPath }
  | .posix =>
    if envTruthy env.ldLibraryPath then
      { env with ldLibraryPath := some (env.ldLibraryPath.getD "" ++ ":" ++ oraClientPath) }
    else
      { env with ldLibraryPath := some oraClientPath }

/-! ### Helper lemmas about the probe -/

theorem pyContainsSub_self (m : String) : pyContainsSub m m = true := by
  simp [pyContainsSub, List.infix_refl]

theorem pyContainsSub_append_right (p sep m : String) :
    pyContainsSub (p ++ sep ++ m) m = true := by
  simp only [pyContainsSub, decide_eq_true_eq, String.data_append]
  exact (List.suffix_append (p.data ++ sep.data) m.data).isInfix

theorem append_marker_ne_empty (p sep m : String) (hm : m ≠ "") :
    p ++ sep ++ m ≠ "" := by
  intro h
  apply hm
  rw [String.ext_iff, String.data_append, String.data_append] at h
  rw [String.ext_iff]
  have := List.append_eq_nil.mp h
  exact this.2

theorem envTruthy_some (s : String) (h : s ≠ "") : envTruthy (some s) = true := by
  simp [envTruthy, h]

theorem infix_data_append (p sep m : String) : m.data <:+: (p ++ sep ++ m).data := by
  simp only [String.data_append]
  exact (List.suffix_append (p.data ++ sep.data) m.data).isInfix

/-- The probe restricted to one variable: true iff the marker is empty, or
the variable is present, non-empty and has the marker as a substring. -/
theorem probe_one_var (m : String) (q : Option String) :
    ((m == "") || (envTruthy q && pyContainsSub (q.getD "") m)) = true ↔
      (m = "" ∨ m.data <:+: (q.getD "").data) := by
  cases q with
  | none =>
    simp [envTruthy, List.infix_nil, String.ext_iff]
  | some s =>
    by_cases hs : s = ""
    · subst hs
      simp [envTruthy, List.infix_nil, String.ext_iff]
    · simp [envTruthy, hs, pyContainsSub]

/-- `oraCheck` collapses to the single-variable probe on the platform's
search-path variable. -/
theorem oraCheck_eq_one_var (osn : OSName) (m : String) (env : Env) :
    oraCheck osn m env =
      ((m == "") ||
        (envTruthy (searchVar osn env) &&
          pyContainsSub ((searchVar osn env).getD "") m)) := by
  obtain ⟨p, l⟩ := env
  cases osn <;> simp [oraCheck, searchVar]

/-- C1: the environment probe performed by `oracle_decorator.wrapper`
before importing the driver is true iff the marker is the empty string,
or the platform's dynamic-library search-path variable (`PATH` on
Windows, `LD_LIBRARY_PATH` on POSIX) is present and contains the marker
as a substring; a missing or empty variable is treated as not containing
any non-empty marker.  The probe is a total boolean function of the
environment (the short-circuit guard prevents calling `.find` on an
absent variable), so it never throws. -/
theorem probe_true_iff (osn : OSName) (m : String) (env : Env) :
    oraCheck osn m env = true ↔
      (m = "" ∨ m.data <:+: ((searchVar osn env).getD "").data) := by
  rw [oraCheck_eq_one_var]
  exact probe_one_var m (searchVar osn env)

/-- C2: relaunch convergence — for a non-empty marker whose probe is
false, the environment produced by the relaunch branch makes the probe
true, so the wrapper in the relaunched process takes the `proceed`
branch: at most one relaunch occurs for a given marker/environment pair. -/
theorem relaunch_converges (osn : OSName) (m : String) (env : Env)
    (pyExecutable : String) (argv : List String)
    (hm : m ≠ "") (hprobe : oraCheck osn m env = false) :
    oraCheck osn m (relaunchBranch osn m env pyExecutable argv).env = true ∧
    oracleWrapper osn m (relaunchBranch osn m env pyExecutable argv).env
      pyExecutable argv = WrapperOutcome.proceed := by
  have hmain :
      oraCheck osn m (relaunchBranch osn m env pyExecutable argv).env = true := by
    rw [oraCheck_eq_one_var, probe_one_var]
    right
    obtain ⟨p, l⟩ := env
    cases osn with
    | nt =>
      by_cases hp : envTruthy p = true
      · simp only [relaunchBranch, hp, if_true, searchVar, Option.getD_some]
        exact infix_data_append _ _ _
      · simp only [relaunchBranch, hp, if_false, Bool.false_eq_true, searchVar,
          Option.getD_some]
        exact List.infix_refl _
    | posix =>
      by_cases hl : envTruthy l = true
      · simp only [relaunchBranch, hl, if_true, searchVar, Option.getD_some]
        exact infix_data_append _ _ _
      · simp only [relaunchBranch, hl, if_false, Bool.false_eq_true, searchVar,
          Option.getD_some]
        exact List.infix_refl _
  exact ⟨hmain, by simp [oracleWrapper, hmain]⟩

/-- Witness for C2 at a concrete POSIX environment with
`LD_LIBRARY_PATH` absent. -/
theorem relaunch_converges_witness :
    oraCheck .posix "/opt/ic" (relaunchBranch .posix "/opt/ic"
      ⟨none, some "/usr/lib"⟩ "py" ["pybase.py", "cmd3", "x"]).env = true ∧
    oracleWrapper .posix "/opt/ic" (relaunchBranch .posix "/opt/ic"
      ⟨none, some "/usr/lib"⟩ "py" ["pybase.py", "cmd3", "x"]).env
      "py" ["pybase.py", "cmd3", "x"] = WrapperOutcome.proceed :=
  relaunch_converges .posix "/opt/ic" ⟨none, some "/usr/lib"⟩ "py"
    ["pybase.py", "cmd3", "x"] (by decide) (by decide)

/-- C3 counterexample: on POSIX with `LD_LIBRARY_PATH = "/usr/lib"` and
marker `"/opt/ic"`, the source appends with `';'`, not with the POSIX
path-list separator `':'` claimed by the spec, so the mutated
environment differs from the spec-worded one. -/
theorem relaunch_separator_cex :
    (relaunchBranch .posix "/opt/ic" ⟨none, some "/usr/lib"⟩ "py"
      ["pybase.py", "cmd3", "x"]).env ≠
    relaunchEnvSpec .posix "/opt/ic" ⟨none, some "/usr/lib"⟩ := by
  decide

/-- C3 (amended): for a non-empty marker with the probe false, the
wrapper takes the relaunch branch; if the search-path variable is absent
or empty it is set to exactly the marker, otherwise `';' ++ marker` is
appended on BOTH platforms (the source hard-codes `';'` also for
`LD_LIBRARY_PATH`); then the process image is replaced with the same
executable and the original argument vector (`sys.executable` with
`[sys.executable] + sys.argv` on Windows, `sys.argv[0]` with `sys.argv`
on POSIX). -/
theorem relaunch_mutation_and_exec (osn : OSName) (m : String) (env : Env)
    (pyExecutable : String) (argv : List String)
    (hm : m ≠ "") (hprobe : oraCheck osn m env = false) :
    oracleWrapper osn m env pyExecutable argv =
      WrapperOutcome.relaunched (relaunchBranch osn m env pyExecutable argv) ∧
    searchVar osn (relaunchBranch osn m env pyExecutable argv).env =
      some (if envTruthy (searchVar osn env) = true
            then (searchVar osn env).getD "" ++ ";" ++ m
            else m) ∧
    (relaunchBranch osn m env pyExecutable argv).call =
      (match osn with
       | OSName.nt => { file := pyExecutable, argv := pyExecutable :: argv }
       | OSName.posix => { file := argv.headD "", argv := argv }) := by
  refine ⟨by simp [oracleWrapper, hprobe], ?_, ?_⟩
  · obtain ⟨p, l⟩ := env
    cases osn with
    | nt =>
      by_cases hp : envTruthy p = true
      · simp [relaunchBranch, searchVar, hp]
      · simp [relaunchBranch, searchVar, hp]
    | posix =>
      by_cases hl : envTruthy l = true
      · simp [relaunchBranch, searchVar, hl]
      · simp [relaunchBranch, searchVar, hl]
  · obtain ⟨p, l⟩ := env
    cases osn <;> simp [relaunchBranch]

/-- Witness for the amended C3 on a POSIX environment with a non-empty
`LD_LIBRARY_PATH`. -/
theorem relaunch_mutation_and_exec_witness :
    oracleWrapper .posix "/opt/ic" ⟨none, some "/usr/lib"⟩ "py"
      ["pybase.py", "cmd3", "x"] =
      WrapperOutcome.relaunched (relaunchBranch .posix "/opt/ic"
        ⟨none, some "/usr/lib"⟩ "py" ["pybase.py", "cmd3", "x"]) ∧
    searchVar .posix (relaunchBranch .posix "/opt/ic" ⟨none, some "/usr/lib"⟩
      "py" ["pybase.py", "cmd3", "x"]).env =
      some (if envTruthy (searchVar .posix ⟨none, some "/usr/lib"⟩) = true
            then (searchVar .posix ⟨none, some "/usr/lib"⟩).getD "" ++ ";" ++ "/opt/ic"
            else "/opt/ic") ∧
    (relaunchBranch .posix "/opt/ic" ⟨none, some "/usr/lib"⟩ "py"
      ["pybase.py", "cmd3", "x"]).call =
      (match OSName.posix with
       | OSName.nt => { file := "py", argv := "py" :: ["pybase.py", "cmd3", "x"] }
       | OSName.posix => { file := ["pybase.py", "cmd3", "x"].headD "",
                           argv := ["pybase.py", "cmd3", "x"] }) :=
  relaunch_mutation_and_exec .posix "/opt/ic" ⟨none, some "/usr/lib"⟩ "py"
    ["pybase.py", "cmd3", "x"] (by decide) (by decide)

/-! ### Session state, exceptions and event traces

`App.__init__` sets `ora_con = ora_select_cur = ora_update_cur = None`
(pybase.py lines 40-42); `oracle_connect` fills them with an open
connection and two open cursors; `oracle_disconnect` commits optionally
and closes them.  Python exceptions are modelled with `Except`, and the
externally observable actions of the program with a trace of events. -/

/-- State of a connection or cursor handle. -/
inductive HandleState where
  | opened
  | closed
deriving DecidableEq, Repr

/-- The Oracle-related attributes of `App`: `none` is Python's `None`
(the value set in `__init__` before any connect). -/
structure OraState where
  con : Option HandleState
  selectCur : Option HandleState
  updateCur : Option HandleState
deriving DecidableEq, Repr

/-- The attributes as `App.__init__` leaves them (pybase.py lines 40-42). -/
def initialOraState : OraState := ⟨none, none, none⟩

/-- The attributes after a successful `oracle_connect`. -/
def connectedOraState : OraState := ⟨some .opened, some .opened, some .opened⟩

/-- Python exceptions the embedded fragments can raise. -/
inductive PyErr where
  | attributeError
  | interfaceError
  | runtimeError
  | commandError
deriving DecidableEq, Repr

/-- Observable events of a run. -/
inductive Ev where
  | initAttrsEv
  | checkAdminEv
  | readConfigEv
  | createArgsEv
  | createLoggerEv
  | logStartEv
  | connectEv
  | beginBodyEv
  | endBodyEv
  | commitEv
  | closeWriteCurEv
  | closeReadCurEv
  | closeConEv
  | logTraceEv
  | sendMailEv (subject : String)
deriving DecidableEq, Repr

/-- Events that release a session resource. -/
def isRelease : Ev → Bool
  | .closeWriteCurEv => true
  | .closeReadCurEv => true
  | .closeConEv => true
  | _ => false

/-- Events that send a notification with the given subject. -/
def isNotify (subject : String) : Ev → Bool
  | .sendMailEv s => s == subject
  | _ => false

/-- `handle.close()` on an optional handle attribute: `None.close()`
raises `AttributeError`; closing an already-closed driver handle raises
the driver's `InterfaceError`; otherwise the handle becomes closed. -/
def closeHandle : Option HandleState → Except PyErr HandleState
  | none => .error .attributeError
  | some .closed => .error .interfaceError
  | some .opened => .ok .closed

/-- `self.ora_con.commit()`: `None.commit()` raises `AttributeError`;
committing on a closed connection raises the driver's `InterfaceError`. -/
def commitCon : Option HandleState → Except PyErr Unit
  | none => .error .attributeError
  | some .closed => .error .interfaceError
  | some .opened => .ok ()

/-- `App.oracle_disconnect(commit=False)` (pybase.py lines 288-295),
statement by statement:

    if commit:
        self.ora_con.commit()
    self.ora_update_cur.close()
    self.ora_select_cur.close()
    self.ora_con.close()

Returns the resulting attribute state and the trace of the events the
call performed, in execution order. -/
def oracleDisconnect (commit : Bool) (st : OraState) :
    Except PyErr (OraState × List Ev) := do
  let trCommit : List Ev ←
    if commit then do
      let _ ← commitCon st.con
      pure [Ev.commitEv]
    else
      pure []
  let u ← closeHandle st.updateCur
  let s ← closeHandle st.selectCur
  let c ← closeHandle st.con
  pure ({ con := some c, selectCur := some s, updateCur := some u },
        trCommit ++ [Ev.closeWriteCurEv, Ev.closeReadCurEv, Ev.closeConEv])

/-- `App.oracle_connect` (pybase.py lines 271-286) in a process where the
environment probe passed: logs, opens one connection and allocates the
select (read) and update (write) cursors.  Driver-level connection
failure is outside `src/`; the claims about the session all assume the
session opened, so the model records a successful open. -/
def oracleConnect (_st : OraState) : OraState × List Ev :=
  (connectedOraState, [Ev.connectEv])

/-- The state after a successful `oracle_disconnect`: the connection and
both cursors exist but are closed. -/
def closedOraState : OraState := ⟨some .closed, some .closed, some .closed⟩

/-- The `cmd3` arm of the `try` block in `App.run` (pybase.py lines
71-74), exactly the three statements

    self.oracle_connect()
    self.cmd3()
    self.oracle_disconnect()

with no `finally` and no handler between them.  `bodyRaises` models
whether the `SELECT` issued by `cmd3` raises (the database round-trip is
external to the program).  Returns the trace up to the point where
control leaves the block, plus either the resulting state or the
escaping exception. -/
def cmd3TryBlock (bodyRaises : Bool) (st : OraState) :
    List Ev × Except PyErr OraState :=
  let (st1, tr1) := oracleConnect st
  if bodyRaises then
    (tr1 ++ [Ev.beginBodyEv], Except.error PyErr.commandError)
  else
    match oracleDisconnect false st1 with
    | .error e => (tr1 ++ [Ev.beginBodyEv, Ev.endBodyEv], .error e)
    | .ok (st2, trD) => (tr1 ++ [Ev.beginBodyEv, Ev.endBodyEv] ++ trD, .ok st2)

/-- `App.run` for `cmd3` (pybase.py lines 64-92): the `try` block above,
and on any exception the `except` handler, which logs the trace with
`logger.exception` and sends one notification whose subject is
`'EXCEPTION - ' + program`.  `run` returns normally in both cases (the
handler neither re-raises nor calls `sys.exit`), so `__main__` falls off
the end and the interpreter exit status is 0; the returned number is
that exit status. -/
def runCmd3 (bodyRaises : Bool) (program : String) (st : OraState) :
    List Ev × Nat :=
  match cmd3TryBlock bodyRaises st with
  | (tr, .ok _) => (tr, 0)
  | (tr, .error _) =>
      (tr ++ [Ev.logTraceEv, Ev.sendMailEv ("EXCEPTION - " ++ program)], 0)

/-- `App.check_admin` (pybase.py lines 202-211): raises `RuntimeError`
when the user has admin/root rights. -/
def checkAdmin (isAdmin : Bool) : Except PyErr Unit :=
  if isAdmin then .error .runtimeError else .ok ()

/-- `App.__init__` (pybase.py lines 29-58), in statement order: set the
path attributes and the three `None` Oracle attributes, call
`check_admin` (which may raise), then read the config, build the
argument parser, create the logger, and log the start lines. -/
def appInit (isAdmin : Bool) : List Ev × Except PyErr OraState :=
  match checkAdmin isAdmin with
  | .error e => ([Ev.initAttrsEv, Ev.checkAdminEv], .error e)
  | .ok _ => ([Ev.initAttrsEv, Ev.checkAdminEv, Ev.readConfigEv,
               Ev.createArgsEv, Ev.createLoggerEv, Ev.logStartEv],
              .ok initialOraState)

/-- `__main__` (pybase.py lines 364-366) invoked with the `cmd3`
command: construct the `App` — if `__init__` raises, the exception is
uncaught and the interpreter exits non-zero — then call `run`, whose
return makes the interpreter exit 0. -/
def mainCmd3 (isAdmin bodyRaises : Bool) (program : String) :
    List Ev × Except PyErr Nat :=
  match appInit isAdmin with
  | (tr, .error e) => (tr, .error e)
  | (tr, .ok st) =>
      let r := runCmd3 bodyRaises program st
      (tr ++ r.1, .ok r.2)

/-- C6: closing the open session commits first — strictly before every
release — and exactly once when `commit` is true, and never commits when
`commit` is false; in both cases the releases happen in the order write
cursor, read cursor, connection. -/
theorem disconnect_commit_and_release_order (commit : Bool) :
    ∃ st' tr, oracleDisconnect commit connectedOraState = Except.ok (st', tr) ∧
      tr.filter isRelease =
        [Ev.closeWriteCurEv, Ev.closeReadCurEv, Ev.closeConEv] ∧
      tr.filter (fun e => e == Ev.commitEv) =
        (if commit then [Ev.commitEv] else []) ∧
      tr.head? = some (if commit then Ev.commitEv else Ev.closeWriteCurEv) := by
  cases commit
  · exact ⟨closedOraState, _, rfl, by decide, by decide, by decide⟩
  · exact ⟨closedOraState, _, rfl, by decide, by decide, by decide⟩

/-- C4 counterexample: when the `cmd3` body raises after the session was
opened, the run performs no release at all — there is no `finally`, so
`oracle_disconnect` is never reached and control goes straight to the
`except` handler. -/
theorem release_skipped_on_error_cex :
    (runCmd3 true "prog" initialOraState).1.filter isRelease = [] ∧
    (runCmd3 true "prog" initialOraState).1 =
      [Ev.connectEv, Ev.beginBodyEv, Ev.logTraceEv,
       Ev.sendMailEv "EXCEPTION - prog"] :=
  ⟨rfl, rfl⟩

/-- C4 (amended): the session close runs only when the command body
completes normally; on that path the releases are write cursor, read
cursor, connection, in order, while on a raising body no cursor or
connection release occurs before the handler logs and notifies. -/
theorem release_only_on_success (bodyRaises : Bool) (program : String) :
    (runCmd3 bodyRaises program initialOraState).1.filter isRelease =
      (if bodyRaises then []
       else [Ev.closeWriteCurEv, Ev.closeReadCurEv, Ev.closeConEv]) := by
  cases bodyRaises <;> rfl

/-- C5 counterexample: with an unhandled error inside the DB command the
interpreter exits with status 0 — `run`'s handler swallows the
exception — even though the trace is logged and exactly one notification
with subject `"EXCEPTION - prog"` is sent. -/
theorem exception_exit_zero_cex :
    (mainCmd3 false true "prog").2 = Except.ok 0 ∧
    (mainCmd3 false true "prog").1.contains Ev.logTraceEv = true ∧
    ((mainCmd3 false true "prog").1.filter (isNotify "EXCEPTION - prog")).length
      = 1 := by
  refine ⟨rfl, rfl, ?_⟩
  decide

/-- C5 (amended): for every run in which the DB command's handler raises
an unhandled error, the failure trace is logged and exactly one
notification with subject `"EXCEPTION - <program>"` is sent, after which
the process exits with status ZERO: the `except` handler returns
normally instead of re-raising or calling `sys.exit`. -/
theorem exception_notify_once_exit_zero (program : String) :
    (mainCmd3 false true program).2 = Except.ok 0 ∧
    (mainCmd3 false true program).1.contains Ev.logTraceEv = true ∧
    ((mainCmd3 false true program).1.filter
      (isNotify ("EXCEPTION - " ++ program))).length = 1 := by
  refine ⟨rfl, rfl, ?_⟩
  show (List.filter _ ([Ev.initAttrsEv, Ev.checkAdminEv, Ev.readConfigEv,
    Ev.createArgsEv, Ev.createLoggerEv, Ev.logStartEv] ++
    [Ev.connectEv, Ev.beginBodyEv, Ev.logTraceEv,
     Ev.sendMailEv ("EXCEPTION - " ++ program)])).length = 1
  simp [isNotify, List.filter]

/-- C8 counterexample: `oracle_disconnect` on the never-opened session
left by `__init__` (all Oracle attributes are `None`) raises
`AttributeError` from `None.close()` — an unhandled exception, not a
no-op. -/
theorem disconnect_unopened_cex :
    oracleDisconnect false initialOraState = Except.error PyErr.attributeError :=
  rfl

/-- C8 (amended): closing a session that was never opened raises
`AttributeError` (the attributes are still `None`), and closing the
session a second time — on the closed state a successful close leaves —
raises the driver's `InterfaceError`; in both cases `oracle_disconnect`
lets the exception escape, so the call is a crash, not a no-op. -/
theorem disconnect_closed_raises (commit : Bool) :
    oracleDisconnect commit initialOraState =
      Except.error PyErr.attributeError ∧
    oracleDisconnect false connectedOraState =
      Except.ok (closedOraState,
        [Ev.closeWriteCurEv, Ev.closeReadCurEv, Ev.closeConEv]) ∧
    oracleDisconnect commit closedOraState =
      Except.error PyErr.interfaceError := by
  cases commit <;> exact ⟨rfl, rfl, rfl⟩

/-- C9: invoked with admin/root rights, startup raises the fatal
`RuntimeError` from `check_admin` before the config is read and before
the logger is created; `run` is never called, so no command body runs,
no connect happens, and the uncaught error terminates the interpreter
non-zero. -/
theorem admin_gate_aborts_startup (bodyRaises : Bool) (program : String) :
    (mainCmd3 true bodyRaises program).2 = Except.error PyErr.runtimeError ∧
    (mainCmd3 true bodyRaises program).1 = [Ev.initAttrsEv, Ev.checkAdminEv] ∧
    (mainCmd3 true bodyRaises program).1.contains Ev.readConfigEv = false ∧
    (mainCmd3 true bodyRaises program).1.contains Ev.createLoggerEv = false ∧
    (mainCmd3 true bodyRaises program).1.contains Ev.beginBodyEv = false ∧
    (mainCmd3 true bodyRaises program).1.contains Ev.connectEv = false :=
  ⟨rfl, rfl, rfl, rfl, rfl, rfl⟩

/-! ### Row projection (`App.oracle_row_factory`, pybase.py lines 297-320)

`create_row(*args)` is
`dict(zip(column_names, [a if a is not None else '' for a in args]))`
where `column_names = [d[0].lower() for d in cursor.description]`.
A Python `dict` built from pairs keeps insertion order of first key
occurrence and lets a later binding overwrite the value in place;
`zip` silently truncates to the shorter operand. -/

/-- A value in a fetched row: `vNone` is Python's `None` (a database
NULL); strings and integers cover the non-NULL values. -/
inductive PyVal where
  | vNone
  | vStr (s : String)
  | vInt (n : Int)
deriving DecidableEq, Repr

/-- The list comprehension `[a if a is not None else '' for a in args]`,
elementwise (pybase.py line 318). -/
def normVal : PyVal → PyVal
  | .vNone => .vStr ""
  | .vStr s => .vStr s
  | .vInt n => .vInt n

/-- `str.lower()`, character by character (the column names coming from
the driver's `description` are ASCII upper-case). -/
def pyLower (s : String) : String := ⟨s.data.map Char.toLower⟩

/-- One step of `dict(...)` construction: an existing key has its value
replaced in place, a new key is appended. -/
def dictInsert (d : List (String × PyVal)) (k : String) (v : PyVal) :
    List (String × PyVal) :=
  if d.any (fun p => p.1 == k) then
    d.map (fun p => if p.1 == k then (k, v) else p)
  else
    d ++ [(k, v)]

/-- `dict(pairs)`. -/
def pyDictOf (pairs : List (String × PyVal)) : List (String × PyVal) :=
  pairs.foldl (fun d p => dictInsert d p.1 p.2) []

/-- `d[k]` as an optional lookup: `none` when the key is absent. -/
def dictGet (d : List (String × PyVal)) (k : String) : Option PyVal :=
  (d.find? (fun p => p.1 == k)).map (fun p => p.2)

/-- `column_names = [d[0].lower() for d in cursor.description]`
(pybase.py line 314); the metadata is modelled by the list of column
name strings, the only component the function reads. -/
def columnNames (description : List String) : List String :=
  description.map (fun d => pyLower d)

/-- The inner `create_row(*args)` (pybase.py lines 316-318). -/
def createRow (colNames : List String) (args : List PyVal) :
    List (String × PyVal) :=
  pyDictOf (List.zip colNames (args.map normVal))

/-- `oracle_row_factory(cursor)` applied to one fetched tuple: capture
the lower-cased column names, then run `create_row` on the values. -/
def oracleRowFactory (description : List String) (args : List PyVal) :
    List (String × PyVal) :=
  createRow (columnNames description) args

/-! ### Helper lemmas about `dict` construction -/

theorem dictInsert_of_not_mem (d : List (String × PyVal)) (k : String)
    (v : PyVal) (h : k ∉ d.map Prod.fst) : dictInsert d k v = d ++ [(k, v)] := by
  have hany : d.any (fun p => p.1 == k) = false := by
    rw [List.any_eq_false]
    intro p hp
    simp only [Bool.not_eq_true, beq_eq_false_iff_ne, ne_eq]
    intro hk
    exact h (List.mem_map.mpr ⟨p, hp, hk⟩)
  simp [dictInsert, hany]

theorem foldl_dictInsert_of_nodup (pairs : List (String × PyVal)) :
    ∀ acc : List (String × PyVal), ((acc ++ pairs).map Prod.fst).Nodup →
      pairs.foldl (fun d p => dictInsert d p.1 p.2) acc = acc ++ pairs := by
  induction pairs with
  | nil => intro acc _; simp
  | cons hd tl ih =>
    intro acc h
    have hmaps : (acc.map Prod.fst ++ (hd.1 :: tl.map Prod.fst)).Nodup := by
      simpa using h
    have hnot : hd.1 ∉ acc.map Prod.fst := by
      have hdisj := (List.nodup_append.mp hmaps).2.2
      intro hmem
      exact hdisj hmem (by simp)
    have hstep : dictInsert acc hd.1 hd.2 = acc ++ [hd] :=
      dictInsert_of_not_mem acc hd.1 hd.2 hnot
    rw [List.foldl_cons, hstep, ih (acc ++ [hd]) (by simpa [List.append_assoc] using h)]
    simp [List.append_assoc]

/-- On pairs with pairwise-distinct keys, `dict(pairs)` is the pair list
itself. -/
theorem pyDictOf_of_nodup (pairs : List (String × PyVal))
    (h : (pairs.map Prod.fst).Nodup) : pyDictOf pairs = pairs := by
  simpa using foldl_dictInsert_of_nodup pairs [] (by simpa using h)

theorem dictGet_eq_none_of_not_mem (d : List (String × PyVal)) (k : String)
    (h : k ∉ d.map Prod.fst) : dictGet d k = none := by
  have hfind : List.find? (fun p => p.1 == k) d = none := by
    rw [List.find?_eq_none]
    intro p hp
    simp only [Bool.not_eq_true, beq_eq_false_iff_ne, ne_eq]
    intro hk
    exact h (List.mem_map.mpr ⟨p, hp, hk⟩)
  simp [dictGet, hfind]

theorem map_fst_zip_eq_take (ks : List String) (vs : List PyVal) :
    (ks.zip vs).map Prod.fst = ks.take vs.length := by
  induction ks generalizing vs with
  | nil => simp
  | cons k ks ih =>
    cases vs with
    | nil => simp
    | cons v vs => simp [ih]

theorem dictGet_zip_get (ks : List String) (vs : List PyVal) (hnd : ks.Nodup) :
    ∀ (i : Nat) (hik : i < ks.length) (hiv : i < vs.length),
      dictGet (ks.zip vs) (ks.get ⟨i, hik⟩) = some (vs.get ⟨i, hiv⟩) := by
  induction ks generalizing vs with
  | nil => intro i hik _; exact absurd hik (by simp)
  | cons k ks ih =>
    intro i hik hiv
    cases vs with
    | nil => exact absurd hiv (by simp)
    | cons v vs =>
      cases i with
      | zero => simp [dictGet, List.find?]
      | succ n =>
        have hn : n < ks.length := by simpa using hik
        have hvn : n < vs.length := by simpa using hiv
        have hfalse : (k == ks.get ⟨n, hn⟩) = false := by
          rw [beq_eq_false_iff_ne]
          intro hk
          exact (List.nodup_cons.mp hnd).1 (hk ▸ List.get_mem ks n hn)
        have hzip : (k :: ks).zip (v :: vs) = (k, v) :: ks.zip vs := rfl
        have hget : (k :: ks).get ⟨n + 1, hik⟩ = ks.get ⟨n, hn⟩ := rfl
        rw [hzip, hget, dictGet]
        have htail := ih vs (List.nodup_cons.mp hnd).2 n hn hvn
        rw [dictGet] at htail
        simp only [List.get_eq_getElem] at hfalse
        simpa [List.find?_cons, hfalse] using htail

theorem columnNames_length (description : List String) :
    (columnNames description).length = description.length := by
  simp [columnNames]

/-- C7: for result metadata and a fetched tuple of the same length whose
lower-cased column names are pairwise distinct (so that "the
corresponding tuple value" of a key is well defined), the produced row
has exactly the lower-cased column names as its keys, in order, and maps
the i-th column name to the i-th tuple value, with a NULL (`None`)
replaced by the empty string and every other value passed through
unchanged. -/
theorem row_factory_projection (description : List String) (args : List PyVal)
    (hlen : description.length = args.length)
    (hnd : (columnNames description).Nodup) :
    (oracleRowFactory description args).map Prod.fst =
      columnNames description ∧
    ∀ i : Fin description.length,
      dictGet (oracleRowFactory description args)
          (pyLower (description.get i)) =
        some (normVal (args.get ⟨(i : Nat), hlen ▸ i.isLt⟩)) := by
  have hlen2 : (columnNames description).length = (args.map normVal).length := by
    simp [columnNames, hlen]
  have hkeys :
      (List.zip (columnNames description) (args.map normVal)).map Prod.fst =
        columnNames description := by
    rw [map_fst_zip_eq_take, ← hlen2, List.take_length]
  have hdict : oracleRowFactory description args =
      List.zip (columnNames description) (args.map normVal) := by
    rw [oracleRowFactory, createRow]
    exact pyDictOf_of_nodup _ (by rw [hkeys]; exact hnd)
  refine ⟨by rw [hdict, hkeys], ?_⟩
  intro i
  have hik : (i : Nat) < (columnNames description).length := by
    rw [columnNames_length]; exact i.isLt
  have hiv : (i : Nat) < (args.map normVal).length := by
    rw [← hlen2, columnNames_length]; exact i.isLt
  have hstep := dictGet_zip_get (columnNames description) (args.map normVal)
    hnd (i : Nat) hik hiv
  have hname : (columnNames description).get ⟨(i : Nat), hik⟩ =
      pyLower (description.get i) := by
    simp [columnNames]
  have hval : (args.map normVal).get ⟨(i : Nat), hiv⟩ =
      normVal (args.get ⟨(i : Nat), hlen ▸ i.isLt⟩) := by
    simp
  rw [hdict]
  rw [hname, hval] at hstep
  exact hstep

/-- Witness for C7 at the spec's example: columns `["COL1","COL2"]` and
tuple `(None, "x")` give the row `{"col1": "", "col2": "x"}`. -/
theorem row_factory_projection_witness :
    (oracleRowFactory ["COL1", "COL2"] [PyVal.vNone, PyVal.vStr "x"]).map
        Prod.fst = columnNames ["COL1", "COL2"] ∧
    dictGet (oracleRowFactory ["COL1", "COL2"] [PyVal.vNone, PyVal.vStr "x"])
        "col1" = some (PyVal.vStr "") ∧
    dictGet (oracleRowFactory ["COL1", "COL2"] [PyVal.vNone, PyVal.vStr "x"])
        "col2" = some (PyVal.vStr "x") := by
  have h := row_factory_projection ["COL1", "COL2"]
    [PyVal.vNone, PyVal.vStr "x"] rfl (by decide)
  exact ⟨h.1, h.2 ⟨0, by decide⟩, h.2 ⟨1, by decide⟩⟩

/-- C10: implicit truncation — when the tuple length differs from the
column count (lower-cased names pairwise distinct), the row is the
element-wise zip of the names with the normalized values: it has exactly
`min(#columns, #values)` entries, extra values are dropped, and a column
with no value is simply absent from the record — its lookup gives
`none`, not an empty string.  `create_row` is a total function of the
two lists, so it never raises. -/
theorem row_factory_truncation (description : List String) (args : List PyVal)
    (hnd : (columnNames description).Nodup) :
    oracleRowFactory description args =
      List.zip (columnNames description) (args.map normVal) ∧
    (oracleRowFactory description args).length =
      min description.length args.length ∧
    ∀ i : Fin description.length, args.length ≤ (i : Nat) →
      dictGet (oracleRowFactory description args)
        (pyLower (description.get i)) = none := by
  have hdict : oracleRowFactory description args =
      List.zip (columnNames description) (args.map normVal) := by
    rw [oracleRowFactory, createRow]
    refine pyDictOf_of_nodup _ ?_
    rw [map_fst_zip_eq_take]
    exact hnd.sublist (List.take_sublist _ _)
  refine ⟨hdict, ?_, ?_⟩
  · rw [hdict, List.length_zip, columnNames_length, List.length_map]
  · intro i hi
    rw [hdict]
    refine dictGet_eq_none_of_not_mem _ _ ?_
    rw [map_fst_zip_eq_take, List.length_map]
    intro hmem
    rw [List.mem_take_iff_getElem] at hmem
    obtain ⟨j, hj, hje⟩ := hmem
    have hjd : j < (columnNames description).length :=
      lt_of_lt_of_le hj (min_le_right _ _)
    have hid : (i : Nat) < (columnNames description).length := by
      rw [columnNames_length]; exact i.isLt
    have hgj : (columnNames description).get ⟨j, hjd⟩ =
        (columnNames description).get ⟨(i : Nat), hid⟩ := by
      have hni : (columnNames description).get ⟨(i : Nat), hid⟩ =
          pyLower (description.get i) := by
        simp [columnNames]
      rw [hni]
      simpa using hje
    have := (List.Nodup.get_inj_iff hnd).mp hgj
    have hj2 : j < args.length := lt_of_lt_of_le hj (min_le_left _ _)
    have : j = (i : Nat) := congrArg Fin.val this
    omega

/-- Witness for C10: three columns, one value — the row keeps only
`{"col1": "a"}` and looking up the unfilled column `col3` yields
`none`. -/
theorem row_factory_truncation_witness :
    oracleRowFactory ["COL1", "COL2", "COL3"] [PyVal.vStr "a"] =
      List.zip (columnNames ["COL1", "COL2", "COL3"])
        ([PyVal.vStr "a"].map normVal) ∧
    (oracleRowFactory ["COL1", "COL2", "COL3"] [PyVal.vStr "a"]).length =
      min 3 1 ∧
    dictGet (oracleRowFactory ["COL1", "COL2", "COL3"] [PyVal.vStr "a"])
      (pyLower "COL3") = none := by
  have h := row_factory_truncation ["COL1", "COL2", "COL3"]
    [PyVal.vStr "a"] (by decide)
  exact ⟨h.1, h.2.1, h.2.2 ⟨2, by decide⟩ (by decide)⟩

end PyBase
